import Mathlib

/-!
Verification of the reaction-diffusion simulation engine
(`src/simulator.ts` of image-to-turing-pattern) against its design
specification.

The engine evolves a two-channel Gray-Scott field on a `size × size`
grid held in a pair of float textures (double buffer).  Each stencil
step is a fragment shader run over the write buffer; every texture
fetch is a bilinear sample with wrap-around (repeat) addressing, so the
shader is embedded here as a per-cell function over `ℚ`-valued fields
together with an explicit model of GL bilinear/wrapped sampling.
Machine floats are modelled by exact rationals.
-/

namespace RD

/-- A two-channel field: cell `(i, j)` holds the pair `(A, B)` of
concentrations.  Texel storage of one of the two float textures. -/
def Grid : Type := ℕ → ℕ → ℚ × ℚ

/-- Wrap-around (GL `repeat`) texel addressing: texel index `i` is
reduced modulo the texture size, as in `wrap: "repeat"` of the two
buffer textures (`simulator.ts` lines 98-113). -/
def wrapIdx (size : ℕ) (i : ℤ) : ℕ :=
  (i % (size : ℤ)).toNat

/-- Fetch a texel with wrap-around addressing on both axes. -/
def texelWrap (size : ℕ) (g : Grid) (i j : ℤ) : ℚ × ℚ :=
  g (wrapIdx size i) (wrapIdx size j)

/-- Fractional part used by bilinear filtering. -/
def fracPart (x : ℚ) : ℚ := x - (⌊x⌋ : ℤ)

/-- Bilinear filtering in texel space: `x, y` are continuous texel
coordinates (texel `i` has its center at coordinate `i`); the four
surrounding texels are blended by the fractional offsets, with
wrap-around addressing. -/
def sampleAtPix (size : ℕ) (g : Grid) (x y : ℚ) : ℚ × ℚ :=
  ((1 - fracPart x) * (1 - fracPart y) * (texelWrap size g ⌊x⌋ ⌊y⌋).1
     + fracPart x * (1 - fracPart y) * (texelWrap size g (⌊x⌋ + 1) ⌊y⌋).1
     + (1 - fracPart x) * fracPart y * (texelWrap size g ⌊x⌋ (⌊y⌋ + 1)).1
     + fracPart x * fracPart y * (texelWrap size g (⌊x⌋ + 1) (⌊y⌋ + 1)).1,
   (1 - fracPart x) * (1 - fracPart y) * (texelWrap size g ⌊x⌋ ⌊y⌋).2
     + fracPart x * (1 - fracPart y) * (texelWrap size g (⌊x⌋ + 1) ⌊y⌋).2
     + (1 - fracPart x) * fracPart y * (texelWrap size g ⌊x⌋ (⌊y⌋ + 1)).2
     + fracPart x * fracPart y * (texelWrap size g (⌊x⌋ + 1) (⌊y⌋ + 1)).2)

/-- GL `texture2D` on a float texture with `min/mag: "linear"` and
`wrap: "repeat"`: normalized coordinates `(u, v)` are mapped to texel
space (`u * size - 1/2`) and bilinearly filtered. -/
def sampleBilinear (size : ℕ) (g : Grid) (u v : ℚ) : ℚ × ℚ :=
  sampleAtPix size g (u * (size : ℚ) - 1/2) (v * (size : ℚ) - 1/2)

/-- Cardinal-neighbor weight of the diffusion stencil
(`const float weight_cardinal = 0.2`). -/
def weight_cardinal : ℚ := 0.2

/-- Diagonal-neighbor weight of the diffusion stencil
(`const float weight_diagonal = 0.05`). -/
def weight_diagonal : ℚ := 0.05

/-- The `diffusion` helper of the stencil shader (`simulator.ts` lines
172-189): weighted sum of the four cardinal and four diagonal
neighbors of `pos`, each sampled from the read texture at normalized
offset `step`. -/
def diffusion (size : ℕ) (g : Grid) (pos : ℚ × ℚ) (step : ℚ) : ℚ × ℚ :=
  let w := sampleBilinear size g (pos.1 - step) pos.2
  let e := sampleBilinear size g (pos.1 + step) pos.2
  let s := sampleBilinear size g pos.1 (pos.2 - step)
  let n := sampleBilinear size g pos.1 (pos.2 + step)
  let sw := sampleBilinear size g (pos.1 - step) (pos.2 - step)
  let se := sampleBilinear size g (pos.1 + step) (pos.2 - step)
  let nw := sampleBilinear size g (pos.1 - step) (pos.2 + step)
  let ne := sampleBilinear size g (pos.1 + step) (pos.2 + step)
  (weight_cardinal * (w.1 + e.1 + s.1 + n.1)
     + weight_diagonal * (sw.1 + se.1 + nw.1 + ne.1),
   weight_cardinal * (w.2 + e.2 + s.2 + n.2)
     + weight_diagonal * (sw.2 + se.2 + nw.2 + ne.2))

/-- The uniforms of the stencil shader `karlsims_reactiondiffusion`
(`simulator.ts` lines 157-166), minus the two samplers. -/
structure StepParams where
  diffusion_step : ℚ
  diffusion_rate : ℚ
  resolution : ℚ
  dt : ℚ
  feed : ℚ
  kill : ℚ

/-- The `main` body of the stencil shader (`simulator.ts` lines
191-203): one Gray-Scott update of the cell whose output pixel is
`(i, j)`, reading from `g` (the bound `u_texture`), with `mask` the
bound `feed_mask` sampler.  The fragment position `v_uv` for output
pixel `(i, j)` is the pixel center `((i + 1/2)/size, (j + 1/2)/size)`. -/
def karlsims_reactiondiffusion (size : ℕ) (p : StepParams)
    (mask : ℚ → ℚ → ℚ) (g : Grid) : Grid :=
  fun i j =>
    let u : ℚ := ((i : ℚ) + 1/2) / (size : ℚ)
    let v : ℚ := ((j : ℚ) + 1/2) / (size : ℚ)
    let center := sampleBilinear size g u v
    let d := diffusion size g (u, v) (p.diffusion_step / p.resolution)
    let blur : ℚ × ℚ := (d.1 - center.1, d.2 - center.2)
    let A := center.1
    let B := center.2
    let reaction := A * B * B
    let local_feed := p.feed * mask u v
    (A + p.dt * (p.diffusion_rate * blur.1 - reaction + local_feed * (1 - A)),
     B + p.dt * (p.diffusion_rate * 0.5 * blur.2 + reaction
                   - (p.kill + local_feed) * B))

/-- An RGBA texel of the seed texture (values normalized to `[0,1]`). -/
structure RGBA where
  r : ℚ
  g : ℚ
  b : ℚ
  a : ℚ

/-- GLSL `mix(x, y, t) = x * (1 - t) + y * t`. -/
def mixc (x y t : ℚ) : ℚ := x * (1 - t) + y * t

/-- The `paint_from_bitmap` shader (`simulator.ts` lines 121-131):
per output pixel, blend the seed texel over the old buffer value by
the seed texel alpha (`gl_FragColor = mix(old, new_texel, new_texel.a)`);
channels A, B of the result are the R, G components. -/
def paint_from_bitmap (size : ℕ) (old : Grid) (bitmap : ℕ → ℕ → RGBA) : Grid :=
  fun i j =>
    let o := sampleBilinear size old (((i : ℚ) + 1/2) / (size : ℚ))
      (((j : ℚ) + 1/2) / (size : ℚ))
    let t := bitmap i j
    (mixc o.1 t.r t.a, mixc o.2 t.g t.a)

/-- The mutable state closed over by the factory: the two buffer
textures (indexed by a bit, as `buffer_textures[0]`/`[1]`), the
alternating index `currentOutputIn`, and the optional feed-mask
texture data. -/
structure Session where
  buffers : Bool → Grid
  currentOutputIn : Bool
  feedMask : Option (List ℚ)

/-- The `run` helper (`simulator.ts` lines 232-238): render `fn` of
the current read texture into the other framebuffer, then flip
`currentOutputIn`. -/
def runSwap (s : Session) (fn : Grid → Grid) : Session :=
  { buffers := fun b =>
      if b = !s.currentOutputIn then fn (s.buffers s.currentOutputIn)
      else s.buffers b,
    currentOutputIn := !s.currentOutputIn,
    feedMask := s.feedMask }

/-- The `reset` function (`simulator.ts` lines 219-229): paint the
source bitmap, blended over the content of the *other* buffer, into
the framebuffer of buffer `currentOutputIn`; `currentOutputIn` itself
is not changed. -/
def resetSim (size : ℕ) (bitmap : ℕ → ℕ → RGBA) (s : Session) : Session :=
  { buffers := fun b =>
      if b = s.currentOutputIn then
        paint_from_bitmap size (s.buffers (!s.currentOutputIn)) bitmap
      else s.buffers b,
    currentOutputIn := s.currentOutputIn,
    feedMask := s.feedMask }

/-- Sampling of the `feed_mask` uniform.  When a mask texture exists it
is a `size × size` single-channel float texture created with regl
defaults (`nearest` filtering, `clamp` wrap), holding the mask data
row-major.  When the session has no mask, the frame loop binds the
placeholder object `{ min: 0, max: 0 }` instead of a texture
(`simulator.ts` line 262); a sampler with no complete texture bound
reads `(0, 0, 0, 1)` under GL rules, so its `.x` component is `0`. -/
def maskSampler (size : ℕ) (m : Option (List ℚ)) : ℚ → ℚ → ℚ :=
  fun u v =>
    match m with
    | none => 0
    | some d =>
        let ix := min (max ⌊u * (size : ℚ)⌋ 0).toNat (size - 1)
        let iy := min (max ⌊v * (size : ℚ)⌋ 0).toNat (size - 1)
        d.getD (iy * size + ix) 0

/-- The per-iteration uniforms supplied by the caller-provided
parameter source `uniforms(context.tick)` (see the frame loop,
`simulator.ts` lines 251-264, and the caller in the app entry file). -/
structure UserParams where
  diffusion_rate : ℚ
  diffusion_step : ℚ
  feed : ℚ
  kill : ℚ
  reset : Bool

/-- The uniform record assembled by the frame loop for one stencil
step (`simulator.ts` lines 256-263): `resolution` is the grid size,
`dt` is the constant `1.0`, the rest is spread from the caller
parameters. -/
def assembleStepParams (size : ℕ) (u : UserParams) : StepParams :=
  { diffusion_step := u.diffusion_step,
    diffusion_rate := u.diffusion_rate,
    resolution := (size : ℚ),
    dt := 1,
    feed := u.feed,
    kill := u.kill }

/-- One committed stencil step as issued by the frame loop: run the
stencil shader over the read buffer with the assembled uniforms and
the session feed-mask sampler, writing the other buffer, and swap. -/
def stepOnce (size : ℕ) (u : UserParams) (s : Session) : Session :=
  runSwap s (karlsims_reactiondiffusion size (assembleStepParams size u)
    (maskSampler size s.feedMask))

/-- The length-normalization step of `updateFeedMask` (`simulator.ts`
lines 275-284): when the supplied field length differs from
`size * size`, copy its first `size * size` elements into a fresh
zero-initialized array (truncating excess, padding with `0`) and set
the diagnostic flag (the `console.warn`); otherwise pass the field
through.  The second component records whether the diagnostic was
emitted. -/
def normalizeFeedMask (size : ℕ) (field : List ℚ) : List ℚ × Bool :=
  if field.length = size * size then (field, false)
  else
    (field.take (size * size)
       ++ List.replicate (size * size - (field.take (size * size)).length) 0,
     true)

/-- The `updateFeedMask` entry point (`simulator.ts` lines 275-292):
normalize the supplied field, then, only if a mask texture was created
at construction, upload the normalized data into it; nothing else of
the session is touched. -/
def updateFeedMask (size : ℕ) (s : Session) (field : List ℚ) : Session :=
  match s.feedMask with
  | some _ => { s with feedMask := some (normalizeFeedMask size field).1 }
  | none => s

/-- The visibility guard of the frame loop (`simulator.ts` lines
245-248): the tick is skipped when the canvas dataset marks the
surface hidden or the document is hidden. -/
def surfaceHidden (datasetVisible visibilityState : String) : Bool :=
  (datasetVisible = "hidden") || (visibilityState = "hidden")

/-- One iteration of the frame loop body (`simulator.ts` lines
251-264): optionally re-seed when the parameters carry the reset flag,
then run one stencil step. -/
def tickIteration (size : ℕ) (bitmap : ℕ → ℕ → RGBA) (u : UserParams)
    (s : Session) : Session :=
  stepOnce size u (if u.reset then resetSim size bitmap s else s)

/-- One frame tick (`simulator.ts` lines 243-272): if the surface is
hidden the whole tick is skipped (no step, no draw); otherwise
`iters` iterations run in sequence and the result is drawn.  The
second component records whether the draw happened. -/
def frameTick (size : ℕ) (hidden : Bool) (iters : ℕ)
    (bitmap : ℕ → ℕ → RGBA) (u : UserParams) (s : Session) :
    Session × Bool :=
  if hidden then (s, false)
  else ((tickIteration size bitmap u)^[iters] s, true)

/-- Clamp a scalar to `[0, 1]` (`Math.max(0, Math.min(1, value))` of
the seed painter in the app entry file). -/
def clamp01 (v : ℚ) : ℚ := max 0 (min 1 v)

/-- Quantization of a seed scalar by the canvas round trip: the seed
painter stores `Math.floor(255 * clamp01 v)` as an 8-bit channel, and
texture sampling renormalizes it to `[0, 1]` by dividing by 255. -/
def quant8 (v : ℚ) : ℚ := ((⌊255 * clamp01 v⌋ : ℤ) : ℚ) / 255

/-- The repository seed painter `initial_bitmap` (app entry file):
every pixel gets the clamped, 8-bit-quantized field value in R, G and
B, and full alpha. -/
def initial_bitmap_texel (field : ℕ → ℕ → ℚ) : ℕ → ℕ → RGBA :=
  fun i j => ⟨quant8 (field i j), quant8 (field i j), quant8 (field i j), 1⟩

/-- Modelled from the spec: the graphics backend underlying the
factory (the regl library, which is not part of this repository source)
validates texture dimensions when `makeReactionDiffusionDiagram`
allocates the two `size × size` buffer textures, so a non-positive
`size` makes the synchronous allocation at construction fail, and
"allocation failure is fatal (cannot proceed without both buffers)".
On success the session starts with zero-initialized buffers, the
supplied feed mask, and the initial `reset()` applied. -/
def makeReactionDiffusionDiagram (size : ℤ) (bitmap : ℕ → ℕ → RGBA)
    (feedMaskData : Option (List ℚ)) : Except String Session :=
  if size ≤ 0 then Except.error "texture allocation failed: invalid dimensions"
  else Except.ok (resetSim size.toNat bitmap
    { buffers := fun _ => fun _ _ => (0, 0),
      currentOutputIn := false,
      feedMask := feedMaskData })

/-- A field that is `(1, 0)` at cell `(0, y)` and `(0, 0)` elsewhere;
the edge impulse of the wrap-around test. -/
def deltaGrid (y : ℕ) : Grid :=
  fun a b => if a = 0 ∧ b = y then (1, 0) else (0, 0)

end RD

namespace RD

/-- Bilinear filtering at exact integer texel coordinates degenerates
to a single wrapped texel fetch. -/
lemma sampleAtPix_int (size : ℕ) (g : Grid) (m n : ℤ) :
    sampleAtPix size g (m : ℚ) (n : ℚ) = texelWrap size g m n := by
  unfold sampleAtPix fracPart
  rw [Int.floor_intCast, Int.floor_intCast]
  simp

/-- A bilinear sample whose texel-space coordinates are the integers
`(m, n)` is exactly the wrapped texel `(m, n)`. -/
lemma sampleBilinear_hit (size : ℕ) (g : Grid) (u v : ℚ) (m n : ℤ)
    (hu : u * (size : ℚ) - 1/2 = (m : ℚ))
    (hv : v * (size : ℚ) - 1/2 = (n : ℚ)) :
    sampleBilinear size g u v = texelWrap size g m n := by
  unfold sampleBilinear
  rw [hu, hv, sampleAtPix_int]

/-- In-range indices are fixed by wrap-around addressing. -/
lemma wrapIdx_of_lt (size : ℕ) (i : ℕ) (h : i < size) :
    wrapIdx size (i : ℤ) = i := by
  unfold wrapIdx
  rw [Int.emod_eq_of_lt (by positivity) (by exact_mod_cast h)]
  exact Int.toNat_natCast i

end RD

namespace RD

/-- C4: at every state the buffer roles are consistent: the write
(next) buffer `!currentOutputIn` is never the read buffer
`currentOutputIn`; a committed step via `runSwap` reads the current
buffer, writes only the other one (leaving the read buffer untouched),
and afterwards the roles have swapped. -/
theorem buffer_pair_role_invariant (s : Session) (fn : Grid → Grid) :
    (!s.currentOutputIn) ≠ s.currentOutputIn
      ∧ (runSwap s fn).currentOutputIn = !s.currentOutputIn
      ∧ (runSwap s fn).buffers (!s.currentOutputIn)
          = fn (s.buffers s.currentOutputIn)
      ∧ (runSwap s fn).buffers s.currentOutputIn
          = s.buffers s.currentOutputIn := by
  refine ⟨?_, rfl, ?_, ?_⟩
  · cases s.currentOutputIn <;> simp
  · simp [runSwap]
  · simp [runSwap]

/-- C6: `updateFeedMask` never changes the contents of either A/B
simulation buffer, nor the read/write role assignment. -/
theorem updateFeedMask_preserves_buffers (size : ℕ) (s : Session)
    (field : List ℚ) :
    (updateFeedMask size s field).buffers = s.buffers
      ∧ (updateFeedMask size s field).currentOutputIn
          = s.currentOutputIn := by
  cases h : s.feedMask <;> simp [updateFeedMask, h]

/-- C10: for a session constructed without a feed mask, `updateFeedMask`
is a complete no-op: the session (buffers, roles, and the absent mask)
is unchanged, so no mask is ever installed and later steps still run
with no mask. -/
theorem updateFeedMask_noop_without_mask (size : ℕ) (s : Session)
    (field : List ℚ) (h : s.feedMask = none) :
    updateFeedMask size s field = s := by
  simp [updateFeedMask, h]

/-- Witness for C10 at a concrete maskless session and field. -/
theorem updateFeedMask_noop_without_mask_witness :
    (({ buffers := fun _ => fun _ _ => (0, 0), currentOutputIn := false,
        feedMask := none } : Session)).feedMask = none
      ∧ updateFeedMask 4
          { buffers := fun _ => fun _ _ => (0, 0), currentOutputIn := false,
            feedMask := none } [1, 2, 3]
        = { buffers := fun _ => fun _ _ => (0, 0), currentOutputIn := false,
            feedMask := none } :=
  ⟨rfl, updateFeedMask_noop_without_mask 4 _ [1, 2, 3] rfl⟩

/-- C7: a frame tick taken while the surface is marked hidden (via the
canvas dataset or the document visibility state) performs no stencil
step and no draw: the whole session state is returned unchanged and
the draw flag is false. -/
theorem hidden_tick_noop (size iters : ℕ) (bitmap : ℕ → ℕ → RGBA)
    (u : UserParams) (s : Session) (dv vs : String) :
    frameTick size (surfaceHidden "hidden" vs) iters bitmap u s = (s, false)
      ∧ frameTick size (surfaceHidden dv "hidden") iters bitmap u s
          = (s, false) := by
  constructor <;> simp [frameTick, surfaceHidden]

/-- C9: constructing a diagram with a non-positive grid size fails
synchronously at construction with an allocation error. -/
theorem nonpositive_size_fatal (size : ℤ) (bitmap : ℕ → ℕ → RGBA)
    (fm : Option (List ℚ)) (h : size ≤ 0) :
    makeReactionDiffusionDiagram size bitmap fm
      = Except.error "texture allocation failed: invalid dimensions" := by
  simp [makeReactionDiffusionDiagram, h]

/-- Witness for C9 at size zero. -/
theorem nonpositive_size_fatal_witness :
    (0 : ℤ) ≤ 0
      ∧ makeReactionDiffusionDiagram 0 (fun _ _ => ⟨0, 0, 0, 1⟩) none
          = Except.error "texture allocation failed: invalid dimensions" :=
  ⟨le_refl 0, nonpositive_size_fatal 0 (fun _ _ => ⟨0, 0, 0, 1⟩) none (le_refl 0)⟩

/-- C5: for any field whose length differs from `size * size`,
`updateFeedMask` normalization emits the diagnostic, produces a field
of exactly `size * size` elements, keeps the supplied elements in
place (truncating any excess) and pads missing elements with `0`;
being a total function, it never throws. -/
theorem feed_mask_length_normalization (size : ℕ) (field : List ℚ)
    (h : field.length ≠ size * size) :
    (normalizeFeedMask size field).2 = true
      ∧ (normalizeFeedMask size field).1.length = size * size
      ∧ ∀ i : ℕ, i < size * size →
          (normalizeFeedMask size field).1.getD i 0 =
            if i < field.length then field.getD i 0 else 0 := by
  unfold normalizeFeedMask
  rw [if_neg h]
  refine ⟨rfl, ?_, ?_⟩
  · simp only [List.length_append, List.length_take, List.length_replicate]
    omega
  · intro i hi
    by_cases hlt : i < field.length
    · rw [if_pos hlt]
      have ht : i < (field.take (size * size)).length := by
        simp only [List.length_take]
        omega
      rw [List.getD_append _ _ _ _ ht]
      simp [List.getD_eq_getElem?_getD, List.getElem?_take, hi, hlt]
    · rw [if_neg hlt]
      have hlen : (field.take (size * size)).length = field.length := by
        simp only [List.length_take]
        omega
      rw [List.getD_append_right _ _ _ _ (by omega)]
      simp only [List.getD_eq_getElem?_getD, List.getElem?_replicate,
        List.length_take]
      split <;> rfl

/-- Witness for C5 with an empty field on a 1-cell grid. -/
theorem feed_mask_length_normalization_witness :
    ([] : List ℚ).length ≠ 1 * 1
      ∧ ((normalizeFeedMask 1 []).2 = true
          ∧ (normalizeFeedMask 1 []).1.length = 1 * 1
          ∧ ∀ i : ℕ, i < 1 * 1 →
              (normalizeFeedMask 1 []).1.getD i 0 =
                if i < ([] : List ℚ).length then ([] : List ℚ).getD i 0 else 0) :=
  ⟨by decide, feed_mask_length_normalization 1 [] (by decide)⟩

end RD

namespace RD

/-- Spec-side statement of the Gray-Scott update, written from the
words of the claim (spec §4.4), to be compared with the code-side
step: with `(A, B)` the read field value at the cell,
`reaction = A * B * B`, `local_feed = feed * mask(p)`, `dt = 1.0`,
neighbor samples taken at normalized offset
`diffusion_step / resolution`, and
`blur = 0.2 * (N + S + E + W) + 0.05 * (NE + NW + SE + SW) - center`,
the new value is
`A + dt * (diffusion_rate * blur.x - reaction + local_feed * (1 - A))`
and
`B + dt * (0.5 * diffusion_rate * blur.y + reaction - (kill + local_feed) * B)`. -/
def specStencilUpdate (size : ℕ) (u : UserParams) (mask : ℚ → ℚ → ℚ)
    (g : Grid) : Grid :=
  fun i j =>
    let uu : ℚ := ((i : ℚ) + 1/2) / (size : ℚ)
    let vv : ℚ := ((j : ℚ) + 1/2) / (size : ℚ)
    let off : ℚ := u.diffusion_step / (size : ℚ)
    let A := (g i j).1
    let B := (g i j).2
    let n := sampleBilinear size g uu (vv + off)
    let s9 := sampleBilinear size g uu (vv - off)
    let e := sampleBilinear size g (uu + off) vv
    let w := sampleBilinear size g (uu - off) vv
    let ne := sampleBilinear size g (uu + off) (vv + off)
    let nw := sampleBilinear size g (uu - off) (vv + off)
    let se := sampleBilinear size g (uu + off) (vv - off)
    let sw := sampleBilinear size g (uu - off) (vv - off)
    let blurx : ℚ :=
      0.2 * (n.1 + s9.1 + e.1 + w.1) + 0.05 * (ne.1 + nw.1 + se.1 + sw.1) - A
    let blury : ℚ :=
      0.2 * (n.2 + s9.2 + e.2 + w.2) + 0.05 * (ne.2 + nw.2 + se.2 + sw.2) - B
    let reaction := A * B * B
    let local_feed := u.feed * mask uu vv
    let dt : ℚ := 1
    (A + dt * (u.diffusion_rate * blurx - reaction + local_feed * (1 - A)),
     B + dt * (0.5 * u.diffusion_rate * blury + reaction
                 - (u.kill + local_feed) * B))

/-- C1: one stencil step writes into the next buffer, at every cell
`(i, j)` of the grid, exactly the Gray-Scott update stated by the
claim (`specStencilUpdate`) of the read buffer, with the mask sampled
by the session feed-mask sampler. -/
theorem stencil_step_formula (size : ℕ) (u : UserParams) (s : Session)
    (i j : ℕ) (hi : i < size) (hj : j < size) :
    (stepOnce size u s).buffers (!s.currentOutputIn) i j =
      specStencilUpdate size u (maskSampler size s.feedMask)
        (s.buffers s.currentOutputIn) i j := by
  have hs0 : (size : ℚ) ≠ 0 := Nat.cast_ne_zero.mpr (by omega)
  have hcenter : sampleBilinear size (s.buffers s.currentOutputIn)
      (((i : ℚ) + 1/2) / (size : ℚ)) (((j : ℚ) + 1/2) / (size : ℚ))
      = s.buffers s.currentOutputIn i j := by
    rw [sampleBilinear_hit size _ _ _ (i : ℤ) (j : ℤ)
      (by push_cast; field_simp; ring) (by push_cast; field_simp; ring)]
    unfold texelWrap
    rw [wrapIdx_of_lt size i hi, wrapIdx_of_lt size j hj]
  simp only [stepOnce, runSwap, karlsims_reactiondiffusion, diffusion,
    specStencilUpdate, assembleStepParams, weight_cardinal, weight_diagonal,
    if_pos]
  rw [hcenter]
  simp only [Prod.mk.injEq]
  constructor <;> ring

/-- Session used for the concrete instantiations below: a maskless
session whose read buffer holds a non-constant field. -/
def sampleSession : Session :=
  { buffers := fun _ => fun a b => ((a : ℚ) + 1/2, (b : ℚ) + 1/3),
    currentOutputIn := false,
    feedMask := none }

/-- Parameter record used for the concrete instantiations below. -/
def sampleUser : UserParams :=
  { diffusion_rate := 7/10, diffusion_step := 1, feed := 3/100,
    kill := 6/100, reset := false }

/-- Witness for C1 on a concrete 1-cell session. -/
theorem stencil_step_formula_witness :
    ((0 : ℕ) < 1 ∧ (0 : ℕ) < 1)
      ∧ (stepOnce 1 sampleUser sampleSession).buffers
            (!sampleSession.currentOutputIn) 0 0
          = specStencilUpdate 1 sampleUser
              (maskSampler 1 sampleSession.feedMask)
              (sampleSession.buffers sampleSession.currentOutputIn) 0 0 :=
  ⟨⟨by decide, by decide⟩,
    stencil_step_formula 1 sampleUser sampleSession 0 0 (by decide) (by decide)⟩

end RD

namespace RD

/-- Session whose buffers are identically zero, used as the pristine
state for concrete seeding runs. -/
def zeroSession : Session :=
  { buffers := fun _ => fun _ _ => (0, 0),
    currentOutputIn := false,
    feedMask := none }

/-- C2 counterexample: on a 1-cell grid seeded with the constant field
`1/2`, the read buffer cell after `reset()` is
`(127/255, 127/255)`: channel B is the quantized seed value, not `0`,
and channel A is the 8-bit quantization `127/255`, not the clamped
seed value `1/2`. -/
theorem reset_seed_counterexample :
    ((resetSim 1 (initial_bitmap_texel fun _ _ => 1/2) zeroSession).buffers
        (resetSim 1 (initial_bitmap_texel fun _ _ => 1/2)
          zeroSession).currentOutputIn 0 0)
      = (127/255, 127/255)
    ∧ (127/255 : ℚ) ≠ 0 ∧ (127/255 : ℚ) ≠ 1/2 := by
  refine ⟨?_, by norm_num, by norm_num⟩
  norm_num [resetSim, paint_from_bitmap, initial_bitmap_texel, mixc, quant8,
    clamp01, zeroSession, sampleBilinear, sampleAtPix, fracPart, texelWrap,
    wrapIdx, Prod.ext_iff]

/-- C2 amended: after `reset()` the read buffer holds, at every cell,
the seed bitmap texel blended over the other buffer by the texel
alpha; with the repository seed painter (full alpha, equal R/G/B) this
fully overwrites the old contents and both channel A and channel B
equal the clamped, 8-bit-quantized seed value — channel B is `0` only
where the quantized seed is `0`. -/
theorem reset_seed_quantized_overwrite (size : ℕ) (field : ℕ → ℕ → ℚ)
    (s : Session) (i j : ℕ) :
    ((resetSim size (initial_bitmap_texel field) s).buffers
        (resetSim size (initial_bitmap_texel field) s).currentOutputIn i j)
      = (quant8 (field i j), quant8 (field i j)) := by
  simp only [resetSim, paint_from_bitmap, initial_bitmap_texel, mixc, if_pos]
  simp [Prod.ext_iff]

/-- Session used for the absent-mask evaluation: constant read field
`(1/2, 0)` and no feed mask installed. -/
def noMaskHalfSession : Session :=
  { buffers := fun _ => fun _ _ => (1/2, 0),
    currentOutputIn := false,
    feedMask := none }

/-- Session identical to `noMaskHalfSession` but carrying an all-ones
feed mask for the 1-cell grid. -/
def onesMaskHalfSession : Session :=
  { buffers := fun _ => fun _ _ => (1/2, 0),
    currentOutputIn := false,
    feedMask := some [1] }

/-- C3 evaluation at the failing input: on a 1-cell grid holding the
constant state `(1/2, 0)` with `feed = 3/100`, a stencil step of the
maskless session leaves A at `1/2` (the absent-mask sampler reads `0`,
so `local_feed = 0`), whereas the same step with an installed all-ones
mask — what the claim says the absent mask behaves like — produces
`1/2 + 3/200`.  The two disagree, so an absent mask is not equivalent
to a mask of all `1.0`. -/
theorem absent_mask_zero_feed_eval :
    ((stepOnce 1 sampleUser noMaskHalfSession).buffers
        (stepOnce 1 sampleUser noMaskHalfSession).currentOutputIn 0 0).1 = 1/2
    ∧ ((stepOnce 1 sampleUser onesMaskHalfSession).buffers
        (stepOnce 1 sampleUser onesMaskHalfSession).currentOutputIn 0 0).1
      = 1/2 + 3/200
    ∧ (1/2 : ℚ) ≠ 1/2 + 3/200 := by
  refine ⟨?_, ?_, by norm_num⟩ <;>
    norm_num [stepOnce, runSwap, karlsims_reactiondiffusion, diffusion,
      assembleStepParams, weight_cardinal, weight_diagonal, maskSampler,
      sampleUser, noMaskHalfSession, onesMaskHalfSession, sampleBilinear,
      sampleAtPix, fracPart, texelWrap, wrapIdx]

end RD

namespace RD

/-- Wrap-around addressing sends the index `size` back to `0`. -/
lemma wrapIdx_self (size : ℕ) : wrapIdx size (size : ℤ) = 0 := by
  unfold wrapIdx
  rw [Int.emod_self]
  rfl

/-- Wrap-around addressing fixes `size - k` for `1 ≤ k ≤ size`. -/
lemma wrapIdx_sub (size k : ℕ) (h1 : 1 ≤ k) (h2 : k ≤ size) :
    wrapIdx size ((size : ℤ) - (k : ℤ)) = size - k := by
  unfold wrapIdx
  rw [Int.emod_eq_of_lt (by omega) (by omega)]
  omega

/-- The wrapped row above `y` is a different row (for `2 ≤ size`). -/
lemma wrapIdx_succ_ne (size y : ℕ) (h2 : 2 ≤ size) (hy : y < size) :
    wrapIdx size ((y : ℤ) + 1) ≠ y := by
  unfold wrapIdx
  by_cases h : y + 1 < size
  · rw [Int.emod_eq_of_lt (by omega) (by omega)]
    omega
  · have hsz : (y : ℤ) + 1 = (size : ℤ) := by omega
    rw [hsz, Int.emod_self]
    omega

/-- The wrapped row below `y` is a different row (for `2 ≤ size`). -/
lemma wrapIdx_pred_ne (size y : ℕ) (h2 : 2 ≤ size) (hy : y < size) :
    wrapIdx size ((y : ℤ) - 1) ≠ y := by
  unfold wrapIdx
  by_cases h : 1 ≤ y
  · rw [Int.emod_eq_of_lt (by omega) (by omega)]
    omega
  · have hy0 : y = 0 := by omega
    have hmod : ((y : ℤ) - 1) % (size : ℤ) = (size : ℤ) - 1 := by
      rw [hy0]
      push_cast
      rw [show (-1 : ℤ) = ((size : ℤ) - 1) + (size : ℤ) * (-1) by ring,
        Int.add_mul_emod_self_left,
        Int.emod_eq_of_lt (by omega) (by omega)]
    rw [hmod]
    omega

/-- Evaluation of the stencil shader at a cell when the sampling
offset covers an integer number `k` of texels: every bilinear fetch
lands exactly on a (wrapped) texel, so the update is the Gray-Scott
formula over the nine wrapped texel values. -/
lemma karlsims_apply_int (size : ℕ) (p : StepParams) (mask : ℚ → ℚ → ℚ)
    (g : Grid) (i j : ℕ) (hi : i < size) (hj : j < size) (k : ℤ)
    (hk : p.diffusion_step / p.resolution * (size : ℚ) = (k : ℚ)) :
    karlsims_reactiondiffusion size p mask g i j =
      (let c := g i j
       let e := texelWrap size g ((i : ℤ) + k) (j : ℤ)
       let w := texelWrap size g ((i : ℤ) - k) (j : ℤ)
       let n := texelWrap size g (i : ℤ) ((j : ℤ) + k)
       let s9 := texelWrap size g (i : ℤ) ((j : ℤ) - k)
       let ne := texelWrap size g ((i : ℤ) + k) ((j : ℤ) + k)
       let nw := texelWrap size g ((i : ℤ) - k) ((j : ℤ) + k)
       let se := texelWrap size g ((i : ℤ) + k) ((j : ℤ) - k)
       let sw := texelWrap size g ((i : ℤ) - k) ((j : ℤ) - k)
       let dx := weight_cardinal * (w.1 + e.1 + s9.1 + n.1)
                   + weight_diagonal * (sw.1 + se.1 + nw.1 + ne.1) - c.1
       let dy := weight_cardinal * (w.2 + e.2 + s9.2 + n.2)
                   + weight_diagonal * (sw.2 + se.2 + nw.2 + ne.2) - c.2
       let lf := p.feed * mask (((i : ℚ) + 1/2) / (size : ℚ))
                   (((j : ℚ) + 1/2) / (size : ℚ))
       (c.1 + p.dt * (p.diffusion_rate * dx - c.1 * c.2 * c.2
                        + lf * (1 - c.1)),
        c.2 + p.dt * (p.diffusion_rate * 0.5 * dy + c.1 * c.2 * c.2
                        - (p.kill + lf) * c.2))) := by
  have hS : (size : ℚ) ≠ 0 := Nat.cast_ne_zero.mpr (by omega)
  have hbi : (((i : ℚ) + 1/2) / (size : ℚ)) * (size : ℚ) = (i : ℚ) + 1/2 :=
    div_mul_cancel₀ _ hS
  have hbj : (((j : ℚ) + 1/2) / (size : ℚ)) * (size : ℚ) = (j : ℚ) + 1/2 :=
    div_mul_cancel₀ _ hS
  have hxc : (((i : ℚ) + 1/2) / (size : ℚ)) * (size : ℚ) - 1/2
      = ((i : ℤ) : ℚ) := by rw [hbi]; push_cast; ring
  have hyc : (((j : ℚ) + 1/2) / (size : ℚ)) * (size : ℚ) - 1/2
      = ((j : ℤ) : ℚ) := by rw [hbj]; push_cast; ring
  have hxp : ((((i : ℚ) + 1/2) / (size : ℚ))
        + p.diffusion_step / p.resolution) * (size : ℚ) - 1/2
      = ((((i : ℤ) + k : ℤ)) : ℚ) := by rw [add_mul, hbi, hk]; push_cast; ring
  have hxm : ((((i : ℚ) + 1/2) / (size : ℚ))
        - p.diffusion_step / p.resolution) * (size : ℚ) - 1/2
      = ((((i : ℤ) - k : ℤ)) : ℚ) := by rw [sub_mul, hbi, hk]; push_cast; ring
  have hyp : ((((j : ℚ) + 1/2) / (size : ℚ))
        + p.diffusion_step / p.resolution) * (size : ℚ) - 1/2
      = ((((j : ℤ) + k : ℤ)) : ℚ) := by rw [add_mul, hbj, hk]; push_cast; ring
  have hym : ((((j : ℚ) + 1/2) / (size : ℚ))
        - p.diffusion_step / p.resolution) * (size : ℚ) - 1/2
      = ((((j : ℤ) - k : ℤ)) : ℚ) := by rw [sub_mul, hbj, hk]; push_cast; ring
  have hc : texelWrap size g (i : ℤ) (j : ℤ) = g i j := by
    unfold texelWrap
    rw [wrapIdx_of_lt size i hi, wrapIdx_of_lt size j hj]
  simp only [karlsims_reactiondiffusion, diffusion]
  rw [sampleBilinear_hit size g _ _ _ _ hxc hyc,
    sampleBilinear_hit size g _ _ _ _ hxm hyc,
    sampleBilinear_hit size g _ _ _ _ hxp hyc,
    sampleBilinear_hit size g _ _ _ _ hxc hym,
    sampleBilinear_hit size g _ _ _ _ hxc hyp,
    sampleBilinear_hit size g _ _ _ _ hxm hym,
    sampleBilinear_hit size g _ _ _ _ hxp hym,
    sampleBilinear_hit size g _ _ _ _ hxm hyp,
    sampleBilinear_hit size g _ _ _ _ hxp hyp,
    hc]

end RD

namespace RD

/-- Parameter record for the wrap-around experiment: sampling distance
of one texel, positive diffusion rate, zero feed and kill so that only
diffusion acts. -/
def wrapUser : UserParams :=
  { diffusion_rate := 7/10, diffusion_step := 1, feed := 0, kill := 0,
    reset := false }

/-- Session whose read buffer carries the single edge impulse at
`(0, y)`. -/
def deltaSession (y : ℕ) : Session :=
  { buffers := fun _ => deltaGrid y,
    currentOutputIn := false,
    feedMask := none }

/-- C8: toroidal wrap-around.  For every grid size at least 2 and every
row `y`, starting from a field that is zero everywhere except for a
unit A-impulse at edge cell `(0, y)`, the opposite edge cell
`(size - 1, y)` — zero before the step — has a strictly positive A
value after one stencil step: the impulse wraps around the boundary. -/
theorem wraparound_influence (size y : ℕ) (h2 : 2 ≤ size) (hy : y < size) :
    deltaGrid y (size - 1) y = (0, 0)
    ∧ 0 < ((stepOnce size wrapUser (deltaSession y)).buffers
        (stepOnce size wrapUser (deltaSession y)).currentOutputIn
        (size - 1) y).1 := by
  have hs1 : size - 1 ≠ 0 := by omega
  refine ⟨by simp [deltaGrid, hs1], ?_⟩
  have hstep : (stepOnce size wrapUser (deltaSession y)).buffers
      (stepOnce size wrapUser (deltaSession y)).currentOutputIn (size - 1) y
      = karlsims_reactiondiffusion size (assembleStepParams size wrapUser)
          (maskSampler size none) (deltaGrid y) (size - 1) y := by
    simp [stepOnce, runSwap, deltaSession]
  rw [hstep]
  rw [karlsims_apply_int size _ _ _ (size - 1) y (by omega) hy 1
    (by simp [assembleStepParams, wrapUser]
        field_simp)]
  rcases eq_or_lt_of_le h2 with hsz2 | hsz2
  · subst hsz2
    interval_cases y <;>
      norm_num [texelWrap, wrapIdx, deltaGrid, assembleStepParams, wrapUser,
        weight_cardinal, weight_diagonal, maskSampler]
  · have e1 : (((size - 1 : ℕ)) : ℤ) = (size : ℤ) - 1 := by omega
    rw [e1]
    rw [show (size : ℤ) - 1 + 1 = (size : ℤ) by ring,
      show (size : ℤ) - 1 - 1 = (size : ℤ) - 2 by ring]
    have hwrapS : wrapIdx size (size : ℤ) = 0 := wrapIdx_self size
    have hwrap1 : wrapIdx size ((size : ℤ) - 1) = size - 1 :=
      wrapIdx_sub size 1 (by omega) (by omega)
    have hwrap2 : wrapIdx size ((size : ℤ) - 2) = size - 2 :=
      wrapIdx_sub size 2 (by omega) (by omega)
    have hwrapy : wrapIdx size (y : ℤ) = y := wrapIdx_of_lt size y hy
    have hwyp : wrapIdx size ((y : ℤ) + 1) ≠ y := wrapIdx_succ_ne size y h2 hy
    have hwym : wrapIdx size ((y : ℤ) - 1) ≠ y := wrapIdx_pred_ne size y h2 hy
    have hs2 : size - 2 ≠ 0 := by omega
    have hC : deltaGrid y (size - 1) y = (0, 0) := by simp [deltaGrid, hs1]
    have hE : texelWrap size (deltaGrid y) (size : ℤ) (y : ℤ) = (1, 0) := by
      unfold texelWrap
      rw [hwrapS, hwrapy]
      simp [deltaGrid]
    have hW : texelWrap size (deltaGrid y) ((size : ℤ) - 2) (y : ℤ)
        = (0, 0) := by
      unfold texelWrap
      rw [hwrap2, hwrapy]
      simp [deltaGrid, hs2]
    have hN : texelWrap size (deltaGrid y) ((size : ℤ) - 1) ((y : ℤ) + 1)
        = (0, 0) := by
      unfold texelWrap
      rw [hwrap1]
      simp [deltaGrid, hs1]
    have hS9 : texelWrap size (deltaGrid y) ((size : ℤ) - 1) ((y : ℤ) - 1)
        = (0, 0) := by
      unfold texelWrap
      rw [hwrap1]
      simp [deltaGrid, hs1]
    have hNE : texelWrap size (deltaGrid y) (size : ℤ) ((y : ℤ) + 1)
        = (0, 0) := by
      unfold texelWrap
      rw [hwrapS]
      simp [deltaGrid, hwyp]
    have hSE : texelWrap size (deltaGrid y) (size : ℤ) ((y : ℤ) - 1)
        = (0, 0) := by
      unfold texelWrap
      rw [hwrapS]
      simp [deltaGrid, hwym]
    have hNW : texelWrap size (deltaGrid y) ((size : ℤ) - 2) ((y : ℤ) + 1)
        = (0, 0) := by
      unfold texelWrap
      rw [hwrap2]
      simp [deltaGrid, hs2]
    have hSW : texelWrap size (deltaGrid y) ((size : ℤ) - 2) ((y : ℤ) - 1)
        = (0, 0) := by
      unfold texelWrap
      rw [hwrap2]
      simp [deltaGrid, hs2]
    rw [hC, hE, hW, hN, hS9, hNE, hSE, hNW, hSW]
    norm_num [assembleStepParams, wrapUser, weight_cardinal, weight_diagonal]

/-- Witness for C8 on the concrete 4-grid at row 2. -/
theorem wraparound_influence_witness :
    (2 ≤ 4 ∧ 2 < 4)
      ∧ (deltaGrid 2 (4 - 1) 2 = (0, 0)
          ∧ 0 < ((stepOnce 4 wrapUser (deltaSession 2)).buffers
              (stepOnce 4 wrapUser (deltaSession 2)).currentOutputIn
              (4 - 1) 2).1) :=
  ⟨⟨by decide, by decide⟩, wraparound_influence 4 2 (by decide) (by decide)⟩

end RD
